import Mathlib

/-!
Verification of the tax-computation engine of the
"simulateur-droits-succession-donation" application.

The engine is the calculation block of `src/App.tsx`: given a transmission
type (`succession` or `donation`), a relationship category (a string key into
the static `FISCAL_DATA` record), a transfer amount and a prior-gifts amount,
it derives an applied allowance, a taxable base and the tax due via a
progressive bracket traversal.  Amounts and rates are modelled as rationals;
the JavaScript `Infinity` upper bound of the last bracket is modelled by the
`none` case of an `Option ℚ`.
-/

/-- Transmission type: `succession` (inheritance) or `donation` (gift). -/
inductive TypeTransmission
  | succession
  | donation
deriving DecidableEq

open TypeTransmission

/-- One entry of a bracket schedule (`barème`): `tranche` is the cumulative
upper bound (`none` models the JavaScript `Infinity` sentinel of the final
bracket) and `taux` the marginal rate. -/
structure Palier where
  tranche : Option ℚ
  taux : ℚ
deriving DecidableEq

/-- A fiscal profile: the base allowance (`abattement`) and the ordered
bracket schedule. -/
structure AbattementInfo where
  abattement : ℚ
  bareme : List Palier
deriving DecidableEq

/-- The direct-line bracket schedule, shared verbatim by the `enfant` and
`conjoint` entries of `FISCAL_DATA` in the source. -/
def baremeLigneDirecte : List Palier :=
  [⟨some 8072, 0.05⟩, ⟨some 12109, 0.10⟩,
   ⟨some 15932, 0.15⟩, ⟨some 552324, 0.20⟩,
   ⟨some 902838, 0.30⟩, ⟨some 1805677, 0.40⟩,
   ⟨none, 0.45⟩]

/-- `FISCAL_DATA['enfant']`. -/
def enfantInfo : AbattementInfo := ⟨100000, baremeLigneDirecte⟩

/-- `FISCAL_DATA['conjoint']` (applies to donations only; a succession to the
spouse is fully exempt before this profile is ever consulted). -/
def conjointInfo : AbattementInfo := ⟨80724, baremeLigneDirecte⟩

/-- `FISCAL_DATA['frere-soeur']`. -/
def frereSoeurInfo : AbattementInfo :=
  ⟨15932, [⟨some 24430, 0.35⟩, ⟨none, 0.45⟩]⟩

/-- `FISCAL_DATA['neveu-niece']`. -/
def neveuNieceInfo : AbattementInfo := ⟨7967, [⟨none, 0.55⟩]⟩

/-- `FISCAL_DATA['autre']`. -/
def autreInfo : AbattementInfo := ⟨1594, [⟨none, 0.60⟩]⟩

/-- The static registry `FISCAL_DATA : Record<string, AbattementInfo>`;
a record lookup on a string key yields `none` for an undefined key. -/
def FISCAL_DATA (lienParente : String) : Option AbattementInfo :=
  if lienParente = "enfant" then some enfantInfo
  else if lienParente = "conjoint" then some conjointInfo
  else if lienParente = "frere-soeur" then some frereSoeurInfo
  else if lienParente = "neveu-niece" then some neveuNieceInfo
  else if lienParente = "autre" then some autreInfo
  else none

/-- The bracket-traversal loop of the engine.  Arguments mirror the source's
loop state: the remaining schedule, `montantRestantATaxer` and
`derniereTranche`.  In the `none` (Infinity) bracket the source computes
`min(remaining, Infinity - derniereTranche) = remaining`, taxes all of it and
continues with `montantRestantATaxer = 0`, which makes every later iteration
a no-op; we therefore keep `derniereTranche` unchanged in that case, which is
behaviourally identical. -/
def calcDroits : List Palier → ℚ → ℚ → ℚ
  | [], _, _ => 0
  | palier :: rest, montantRestantATaxer, derniereTranche =>
    if montantRestantATaxer ≤ 0 then 0
    else
      match palier.tranche with
      | none =>
        montantRestantATaxer * palier.taux + calcDroits rest 0 derniereTranche
      | some u =>
        let montantDansLaTranche := min montantRestantATaxer (u - derniereTranche)
        montantDansLaTranche * palier.taux +
          calcDroits rest (montantRestantATaxer - montantDansLaTranche) u

/-- The result record set by the engine (`setResults` payload). -/
structure Results where
  droitsAPayer : ℚ
  montantNet : ℚ
  abattementApplique : ℚ
  baseTaxable : ℚ
deriving DecidableEq

/-- One run of the calculation block of the `useEffect` hook.  Returns
`none` when the block reaches the early `return` after a failed
`FISCAL_DATA` lookup (in which case `setResults` is never called), otherwise
the `Results` record it stores. -/
def compute (typeTransmission : TypeTransmission) (lienParente : String)
    (montantTransmis donationsAnterieures : ℚ) : Option Results :=
  if typeTransmission = succession ∧ lienParente = "conjoint" then
    some ⟨0, montantTransmis, montantTransmis, 0⟩
  else
    match FISCAL_DATA lienParente with
    | none => none
    | some fiscalInfo =>
      let abattementReel := max 0 (fiscalInfo.abattement - donationsAnterieures)
      let baseTaxable := max 0 (montantTransmis - abattementReel)
      let droits := calcDroits fiscalInfo.bareme baseTaxable 0
      some ⟨droits, montantTransmis - droits, abattementReel, baseTaxable⟩

/-- The displayed state after one run of the effect: the new results when the
block stores some, the previous (stale) results when the early return fires. -/
def updateResults (prev : Results) (typeTransmission : TypeTransmission)
    (lienParente : String) (montantTransmis donationsAnterieures : ℚ) : Results :=
  (compute typeTransmission lienParente montantTransmis donationsAnterieures).getD prev

/-- Every rate of a schedule is non-negative. -/
def RatesNonneg (l : List Palier) : Prop := ∀ p ∈ l, 0 ≤ p.taux

/-- Every rate of a schedule is at most 1. -/
def RatesLe1 (l : List Palier) : Prop := ∀ p ∈ l, p.taux ≤ 1

/-- `ChainFrom d l`: every finite upper bound of `l` is at least `d` and the
bounds increase along the list.  (After an Infinity bracket nothing further is
constrained: the loop can no longer tax anything there.) -/
def ChainFrom : ℚ → List Palier → Prop
  | _, [] => True
  | d, palier :: rest =>
    match palier.tranche with
    | none => True
    | some u => d ≤ u ∧ ChainFrom u rest

/-- A profile is well-formed: non-negative allowance, rates in [0,1], and a
bound chain starting at 0. -/
def ValidInfo (info : AbattementInfo) : Prop :=
  0 ≤ info.abattement ∧ RatesNonneg info.bareme ∧ RatesLe1 info.bareme ∧
    ChainFrom 0 info.bareme

theorem calcDroits_zero (l : List Palier) (d : ℚ) : calcDroits l 0 d = 0 := by
  cases l <;> simp [calcDroits]

theorem calcDroits_nonneg (l : List Palier) :
    ∀ d r : ℚ, RatesNonneg l → ChainFrom d l → 0 ≤ calcDroits l r d := by
  induction l with
  | nil => intro d r _ _; simp [calcDroits]
  | cons palier rest ih =>
    obtain ⟨ot, taux⟩ := palier
    intro d r hrates hchain
    have htaux : 0 ≤ taux := hrates _ (List.mem_cons_self _ _)
    have hrest : RatesNonneg rest := fun p hp => hrates p (List.mem_cons_of_mem _ hp)
    by_cases hr : r ≤ 0
    · simp [calcDroits, hr]
    · push_neg at hr
      cases ot with
      | none =>
        simp only [calcDroits, if_neg (not_le.mpr hr), calcDroits_zero, add_zero]
        exact mul_nonneg hr.le htaux
      | some u =>
        simp only [ChainFrom] at hchain
        simp only [calcDroits, if_neg (not_le.mpr hr)]
        have hmin : 0 ≤ min r (u - d) := le_min hr.le (by linarith [hchain.1])
        exact add_nonneg (mul_nonneg hmin htaux) (ih u _ hrest hchain.2)

theorem calcDroits_mono (l : List Palier) :
    ∀ d a b : ℚ, RatesNonneg l → ChainFrom d l → a ≤ b →
      calcDroits l a d ≤ calcDroits l b d := by
  induction l with
  | nil => intro d a b _ _ _; simp [calcDroits]
  | cons palier rest ih =>
    obtain ⟨ot, taux⟩ := palier
    intro d a b hrates hchain hab
    have htaux : 0 ≤ taux := hrates _ (List.mem_cons_self _ _)
    have hrest : RatesNonneg rest := fun p hp => hrates p (List.mem_cons_of_mem _ hp)
    by_cases ha : a ≤ 0
    · rw [show calcDroits (⟨ot, taux⟩ :: rest) a d = 0 by simp [calcDroits, ha]]
      exact calcDroits_nonneg _ d b hrates hchain
    · have hb : ¬ b ≤ 0 := fun hb => ha (hab.trans hb)
      cases ot with
      | none =>
        simp only [calcDroits, if_neg ha, if_neg hb]
        exact add_le_add_right (mul_le_mul_of_nonneg_right hab htaux) _
      | some u =>
        simp only [ChainFrom] at hchain
        simp only [calcDroits, if_neg ha, if_neg hb]
        have h1 : min a (u - d) ≤ min b (u - d) := min_le_min hab le_rfl
        have h2 : a - min a (u - d) ≤ b - min b (u - d) := by
          simp only [min_def]; split_ifs <;> linarith
        exact add_le_add (mul_le_mul_of_nonneg_right h1 htaux)
          (ih u _ _ hrest hchain.2 h2)

theorem calcDroits_le (l : List Palier) :
    ∀ d r : ℚ, RatesNonneg l → RatesLe1 l → ChainFrom d l → 0 ≤ r →
      calcDroits l r d ≤ r := by
  induction l with
  | nil => intro d r _ _ _ hr; simpa [calcDroits] using hr
  | cons palier rest ih =>
    obtain ⟨ot, taux⟩ := palier
    intro d r hrates hle1 hchain hr0
    have htaux : 0 ≤ taux := hrates _ (List.mem_cons_self _ _)
    have htaux1 : taux ≤ 1 := hle1 _ (List.mem_cons_self _ _)
    have hrest : RatesNonneg rest := fun p hp => hrates p (List.mem_cons_of_mem _ hp)
    have hrest1 : RatesLe1 rest := fun p hp => hle1 p (List.mem_cons_of_mem _ hp)
    by_cases hr : r ≤ 0
    · simpa [calcDroits, hr] using hr0
    · push_neg at hr
      cases ot with
      | none =>
        simp only [calcDroits, if_neg (not_le.mpr hr), calcDroits_zero, add_zero]
        exact mul_le_of_le_one_right hr.le htaux1
      | some u =>
        simp only [ChainFrom] at hchain
        simp only [calcDroits, if_neg (not_le.mpr hr)]
        have hmin : 0 ≤ min r (u - d) := le_min hr.le (by linarith [hchain.1])
        have hsub : 0 ≤ r - min r (u - d) := sub_nonneg.mpr (min_le_left _ _)
        calc min r (u - d) * taux + calcDroits rest (r - min r (u - d)) u
            ≤ min r (u - d) + (r - min r (u - d)) :=
              add_le_add (mul_le_of_le_one_right hmin htaux1)
                (ih u _ hrest hrest1 hchain.2 hsub)
          _ = r := by ring

theorem valid_enfantInfo : ValidInfo enfantInfo := by
  norm_num [ValidInfo, RatesNonneg, RatesLe1, ChainFrom, enfantInfo, baremeLigneDirecte]

theorem valid_conjointInfo : ValidInfo conjointInfo := by
  norm_num [ValidInfo, RatesNonneg, RatesLe1, ChainFrom, conjointInfo, baremeLigneDirecte]

theorem valid_frereSoeurInfo : ValidInfo frereSoeurInfo := by
  norm_num [ValidInfo, RatesNonneg, RatesLe1, ChainFrom, frereSoeurInfo]

theorem valid_neveuNieceInfo : ValidInfo neveuNieceInfo := by
  norm_num [ValidInfo, RatesNonneg, RatesLe1, ChainFrom, neveuNieceInfo]

theorem valid_autreInfo : ValidInfo autreInfo := by
  norm_num [ValidInfo, RatesNonneg, RatesLe1, ChainFrom, autreInfo]

/-- Every profile stored in the registry is well-formed. -/
theorem FISCAL_DATA_valid (l : String) (info : AbattementInfo)
    (h : FISCAL_DATA l = some info) : ValidInfo info := by
  unfold FISCAL_DATA at h
  split_ifs at h <;> cases h
  · exact valid_enfantInfo
  · exact valid_conjointInfo
  · exact valid_frereSoeurInfo
  · exact valid_neveuNieceInfo
  · exact valid_autreInfo

/-- Closed form of the non-exempt branch of the engine. -/
theorem compute_nonexempt (t : TypeTransmission) (l : String)
    (info : AbattementInfo) (hinfo : FISCAL_DATA l = some info)
    (hne : ¬(t = succession ∧ l = "conjoint")) (m don : ℚ) :
    compute t l m don =
      some ⟨calcDroits info.bareme (max 0 (m - max 0 (info.abattement - don))) 0,
            m - calcDroits info.bareme (max 0 (m - max 0 (info.abattement - don))) 0,
            max 0 (info.abattement - don),
            max 0 (m - max 0 (info.abattement - don))⟩ := by
  unfold compute
  rw [if_neg hne, hinfo]

/-- Closed form of the exemption branch of the engine. -/
theorem compute_exempt (m don : ℚ) :
    compute succession "conjoint" m don = some ⟨0, m, m, 0⟩ := by
  unfold compute
  rw [if_pos ⟨rfl, rfl⟩]

/-- Claim C1 counterexample: on input (donation, enfant, 300000, 0) the engine
returns taxDue = 38194.35 (and netAmountReceived = 261805.65), not the claimed
approximately 35974.50: the difference exceeds 2219.  The spec's scenario
miscomputes the bracket widths — the schedule's `tranche` values are cumulative
upper bounds, so the widths are 8072, 4037, 3823 and then 184068 at 20%. -/
theorem C1_counterexample :
    (compute donation "enfant" 300000 0).map Results.droitsAPayer =
      some 38194.35 ∧ (2219 : ℚ) < |38194.35 - 35974.50| := by
  constructor
  · norm_num +decide [compute, FISCAL_DATA, enfantInfo, baremeLigneDirecte, calcDroits]
  · rw [abs_of_nonneg (by norm_num)]; norm_num

/-- Claim C1 (amended): `compute(donation, enfant, 300000, 0)` returns
allowanceApplied = 100000, taxableBase = 200000, taxDue = 38194.35 and
netAmountReceived = 261805.65. -/
theorem C1_amended :
    compute donation "enfant" 300000 0 =
      some ⟨38194.35, 261805.65, 100000, 200000⟩ := by
  norm_num +decide [compute, FISCAL_DATA, enfantInfo, baremeLigneDirecte, calcDroits]

/-- Claim C2: for every transferAmount ≥ 0 and every priorGiftsAmount, a
succession to the spouse is fully exempt: taxDue = 0, netAmountReceived =
transferAmount, allowanceApplied = transferAmount, taxableBase = 0.  The
exemption branch of `compute` returns before the registry is consulted. -/
theorem C2_spouse_succession_exempt (m don : ℚ) (hm : 0 ≤ m) :
    compute succession "conjoint" m don = some ⟨0, m, m, 0⟩ :=
  compute_exempt m don

theorem C2_spouse_succession_exempt_witness :
    compute succession "conjoint" 500000 3 = some ⟨0, 500000, 500000, 0⟩ :=
  C2_spouse_succession_exempt 500000 3 (by norm_num)

/-- Claim C3: in every non-exempt computation the applied allowance is
`max 0 (allowance - priorGifts)`; when priorGifts ≥ allowance it is 0 and the
excess has no further effect on the taxable base, which is then
`max 0 transferAmount`. -/
theorem C3_allowance_reduction (t : TypeTransmission) (l : String)
    (info : AbattementInfo) (m don : ℚ) (r : Results)
    (hinfo : FISCAL_DATA l = some info)
    (hne : ¬(t = succession ∧ l = "conjoint"))
    (hr : compute t l m don = some r) :
    r.abattementApplique = max 0 (info.abattement - don) ∧
    (info.abattement ≤ don → r.abattementApplique = 0) ∧
    (info.abattement ≤ don → r.baseTaxable = max 0 m) := by
  rw [compute_nonexempt t l info hinfo hne m don] at hr
  cases hr
  have habz : info.abattement ≤ don → max 0 (info.abattement - don) = 0 :=
    fun hd => max_eq_left (sub_nonpos.mpr hd)
  exact ⟨rfl, fun hd => habz hd, fun hd => by rw [habz hd, sub_zero]⟩

theorem C3_allowance_reduction_witness :
    (⟨6000, 4000, 0, 10000⟩ : Results).abattementApplique =
      max 0 (autreInfo.abattement - 2000) ∧
    (autreInfo.abattement ≤ 2000 →
      (⟨6000, 4000, 0, 10000⟩ : Results).abattementApplique = 0) ∧
    (autreInfo.abattement ≤ 2000 →
      (⟨6000, 4000, 0, 10000⟩ : Results).baseTaxable = max 0 10000) :=
  C3_allowance_reduction donation "autre" autreInfo 10000 2000 _
    (by norm_num +decide [FISCAL_DATA]) (by simp)
    (by norm_num +decide [compute, FISCAL_DATA, autreInfo, calcDroits])

/-- Claim C4: in every non-exempt computation with non-negative inputs,
netAmountReceived + taxDue = transferAmount exactly. -/
theorem C4_conservation (t : TypeTransmission) (l : String) (m don : ℚ)
    (r : Results) (hm : 0 ≤ m) (hdon : 0 ≤ don)
    (hne : ¬(t = succession ∧ l = "conjoint"))
    (hr : compute t l m don = some r) :
    r.montantNet + r.droitsAPayer = m := by
  cases hinfo : FISCAL_DATA l with
  | none =>
    rw [show compute t l m don = none by unfold compute; rw [if_neg hne, hinfo]] at hr
    cases hr
  | some info =>
    rw [compute_nonexempt t l info hinfo hne m don] at hr
    cases hr
    exact sub_add_cancel m _

theorem C4_conservation_witness :
    (⟨12887.6, 37112.4, 15932, 34068⟩ : Results).montantNet +
      (⟨12887.6, 37112.4, 15932, 34068⟩ : Results).droitsAPayer = 50000 :=
  C4_conservation donation "frere-soeur" 50000 0 _ (by norm_num) (by norm_num)
    (by simp)
    (by norm_num +decide [compute, FISCAL_DATA, frereSoeurInfo, calcDroits])

/-- Claim C5: for every registry category and transmission type other than the
exempt (succession, conjoint) pair, with priorGifts fixed at 0, the tax due is
monotonically non-decreasing in the transfer amount. -/
theorem C5_taxDue_mono_transfer (t : TypeTransmission) (l : String)
    (info : AbattementInfo) (a b : ℚ) (ra rb : Results)
    (hinfo : FISCAL_DATA l = some info)
    (hne : ¬(t = succession ∧ l = "conjoint"))
    (ha : 0 ≤ a) (hab : a ≤ b)
    (hra : compute t l a 0 = some ra) (hrb : compute t l b 0 = some rb) :
    ra.droitsAPayer ≤ rb.droitsAPayer := by
  rw [compute_nonexempt t l info hinfo hne a 0] at hra
  cases hra
  rw [compute_nonexempt t l info hinfo hne b 0] at hrb
  cases hrb
  obtain ⟨hab0, hrn, hr1, hch⟩ := FISCAL_DATA_valid l info hinfo
  exact calcDroits_mono info.bareme 0 _ _ hrn hch
    (max_le_max le_rfl (sub_le_sub_right hab _))

theorem C5_taxDue_mono_transfer_witness :
    (⟨0, 0, 1594, 0⟩ : Results).droitsAPayer ≤
      (⟨5043.6, 4956.4, 1594, 8406⟩ : Results).droitsAPayer :=
  C5_taxDue_mono_transfer donation "autre" autreInfo 0 10000 _ _
    (by norm_num +decide [FISCAL_DATA]) (by simp) (by norm_num) (by norm_num)
    (by norm_num +decide [compute, FISCAL_DATA, autreInfo, calcDroits])
    (by norm_num +decide [compute, FISCAL_DATA, autreInfo, calcDroits])

/-- Claim C6 counterexample: in the exemption branch the engine stores
allowanceApplied = transferAmount, so on (succession, conjoint, 500000, 0) the
applied allowance 500000 strictly exceeds the conjoint profile allowance
80724 — the claim fails in the exemption case it explicitly includes. -/
theorem C6_counterexample :
    FISCAL_DATA "conjoint" = some conjointInfo ∧
    compute succession "conjoint" 500000 0 = some ⟨0, 500000, 500000, 0⟩ ∧
    conjointInfo.abattement <
      (⟨0, 500000, 500000, 0⟩ : Results).abattementApplique := by
  refine ⟨by norm_num +decide [FISCAL_DATA], compute_exempt 500000 0, ?_⟩
  norm_num [conjointInfo]

/-- Claim C6 (amended): every non-exempt result with non-negative
priorGiftsAmount satisfies allowanceApplied ≤ profile allowance; in the
exemption branch allowanceApplied equals transferAmount instead, which can
exceed the conjoint profile allowance. -/
theorem C6_amended (t : TypeTransmission) (l : String) (info : AbattementInfo)
    (m don : ℚ) (r : Results)
    (hinfo : FISCAL_DATA l = some info)
    (hne : ¬(t = succession ∧ l = "conjoint")) (hdon : 0 ≤ don)
    (hr : compute t l m don = some r) :
    r.abattementApplique ≤ info.abattement := by
  rw [compute_nonexempt t l info hinfo hne m don] at hr
  cases hr
  exact max_le (FISCAL_DATA_valid l info hinfo).1 (sub_le_self _ hdon)

theorem C6_amended_witness :
    (⟨0, 100, 80719, 0⟩ : Results).abattementApplique ≤
      conjointInfo.abattement :=
  C6_amended donation "conjoint" conjointInfo 100 5 _
    (by norm_num +decide [FISCAL_DATA]) (by simp) (by norm_num)
    (by norm_num +decide [compute, FISCAL_DATA, conjointInfo,
      baremeLigneDirecte, calcDroits])

/-- Claim C7: whenever the engine stores a result for non-negative
transferAmount and priorGiftsAmount, all four output fields are
non-negative. -/
theorem C7_outputs_nonneg (t : TypeTransmission) (l : String) (m don : ℚ)
    (r : Results) (hm : 0 ≤ m) (hdon : 0 ≤ don)
    (hr : compute t l m don = some r) :
    0 ≤ r.droitsAPayer ∧ 0 ≤ r.montantNet ∧
      0 ≤ r.abattementApplique ∧ 0 ≤ r.baseTaxable := by
  by_cases hex : t = succession ∧ l = "conjoint"
  · obtain ⟨h1, h2⟩ := hex
    subst h1; subst h2
    rw [compute_exempt] at hr
    cases hr
    exact ⟨le_rfl, hm, hm, le_rfl⟩
  · cases hinfo : FISCAL_DATA l with
    | none =>
      rw [show compute t l m don = none by
        unfold compute; rw [if_neg hex, hinfo]] at hr
      cases hr
    | some info =>
      rw [compute_nonexempt t l info hinfo hex m don] at hr
      cases hr
      obtain ⟨hab0, hrn, hr1, hch⟩ := FISCAL_DATA_valid l info hinfo
      have hbase0 : (0:ℚ) ≤ max 0 (m - max 0 (info.abattement - don)) :=
        le_max_left _ _
      have hbasem : max 0 (m - max 0 (info.abattement - don)) ≤ m :=
        max_le hm (sub_le_self m (le_max_left _ _))
      have hdro := calcDroits_nonneg info.bareme 0
        (max 0 (m - max 0 (info.abattement - don))) hrn hch
      have hdrole := calcDroits_le info.bareme 0
        (max 0 (m - max 0 (info.abattement - don))) hrn hr1 hch hbase0
      exact ⟨hdro, sub_nonneg.mpr (hdrole.trans hbasem),
        le_max_left _ _, hbase0⟩

theorem C7_outputs_nonneg_witness :
    0 ≤ (⟨0, 7, 7, 0⟩ : Results).droitsAPayer ∧
    0 ≤ (⟨0, 7, 7, 0⟩ : Results).montantNet ∧
    0 ≤ (⟨0, 7, 7, 0⟩ : Results).abattementApplique ∧
    0 ≤ (⟨0, 7, 7, 0⟩ : Results).baseTaxable :=
  C7_outputs_nonneg succession "conjoint" 7 0 _ (by norm_num) (by norm_num)
    (by norm_num +decide [compute])

/-- Claim C8 counterexample: for the unknown category "cousin" the lookup
yields nothing, the calculation block hits the early `return` producing no
result and no error value of any kind, and the previously displayed results
remain unchanged — the very silent no/unchanged output the claim rules out. -/
theorem C8_counterexample :
    FISCAL_DATA "cousin" = none ∧
    compute donation "cousin" 100000 0 = none ∧
    updateResults ⟨1, 2, 3, 4⟩ donation "cousin" 100000 0 = ⟨1, 2, 3, 4⟩ := by
  refine ⟨by norm_num +decide [FISCAL_DATA], ?_, ?_⟩ <;>
    norm_num +decide [updateResults, compute, FISCAL_DATA]

/-- Claim C8 (amended): on an unrecognized category (outside the exempt pair)
the engine does not fall back to another profile, but it reports no error
either: it produces no result and the previous results stay in place. -/
theorem C8_amended (t : TypeTransmission) (l : String) (m don : ℚ)
    (prev : Results) (hinfo : FISCAL_DATA l = none)
    (hne : ¬(t = succession ∧ l = "conjoint")) :
    compute t l m don = none ∧ updateResults prev t l m don = prev := by
  have h : compute t l m don = none := by
    unfold compute; rw [if_neg hne, hinfo]
  exact ⟨h, by unfold updateResults; rw [h]; rfl⟩

theorem C8_amended_witness :
    compute donation "cousin" 42 0 = none ∧
    updateResults ⟨5, 6, 7, 8⟩ donation "cousin" 42 0 = ⟨5, 6, 7, 8⟩ :=
  C8_amended donation "cousin" 42 0 ⟨5, 6, 7, 8⟩
    (by norm_num +decide [FISCAL_DATA]) (by simp)

/-- Claim C9 counterexample: a negative transferAmount is not rejected — the
engine clamps the taxable base to 0 via `max` and returns a full result, here
taxDue = 0 and netAmountReceived = -100 on (donation, enfant, -100, 0). -/
theorem C9_counterexample :
    compute donation "enfant" (-100) 0 = some ⟨0, -100, 100000, 0⟩ := by
  norm_num +decide [compute, FISCAL_DATA, enfantInfo, baremeLigneDirecte,
    calcDroits]

/-- Claim C9 (amended): negative amounts are never rejected; for a negative
transferAmount (and non-negative priorGifts) in a non-exempt case the engine
silently clamps the taxable base to 0 and returns taxDue = 0,
netAmountReceived = transferAmount. -/
theorem C9_amended (t : TypeTransmission) (l : String) (info : AbattementInfo)
    (m don : ℚ) (hinfo : FISCAL_DATA l = some info)
    (hne : ¬(t = succession ∧ l = "conjoint"))
    (hm : m < 0) (hdon : 0 ≤ don) :
    compute t l m don = some ⟨0, m, max 0 (info.abattement - don), 0⟩ := by
  rw [compute_nonexempt t l info hinfo hne m don]
  have hbase : max 0 (m - max 0 (info.abattement - don)) = 0 :=
    max_eq_left (by
      have := le_max_left (0:ℚ) (info.abattement - don); linarith)
  rw [hbase, calcDroits_zero, sub_zero]

theorem C9_amended_witness :
    compute donation "enfant" (-100) 5 =
      some ⟨0, -100, max 0 (enfantInfo.abattement - 5), 0⟩ :=
  C9_amended donation "enfant" enfantInfo (-100) 5
    (by norm_num +decide [FISCAL_DATA]) (by simp) (by norm_num) (by norm_num)

/-- Claim C10: in every non-exempt computation, with the other inputs fixed,
the tax due is monotonically non-decreasing and the net amount received
monotonically non-increasing in the prior-gifts amount. -/
theorem C10_mono_priorgifts (t : TypeTransmission) (l : String)
    (info : AbattementInfo) (m don1 don2 : ℚ) (r1 r2 : Results)
    (hinfo : FISCAL_DATA l = some info)
    (hne : ¬(t = succession ∧ l = "conjoint")) (hd : don1 ≤ don2)
    (h1 : compute t l m don1 = some r1) (h2 : compute t l m don2 = some r2) :
    r1.droitsAPayer ≤ r2.droitsAPayer ∧ r2.montantNet ≤ r1.montantNet := by
  rw [compute_nonexempt t l info hinfo hne m don1] at h1
  cases h1
  rw [compute_nonexempt t l info hinfo hne m don2] at h2
  cases h2
  obtain ⟨hab0, hrn, hr1, hch⟩ := FISCAL_DATA_valid l info hinfo
  have har : max 0 (info.abattement - don2) ≤ max 0 (info.abattement - don1) :=
    max_le_max le_rfl (sub_le_sub_left hd _)
  have hbase : max 0 (m - max 0 (info.abattement - don1)) ≤
      max 0 (m - max 0 (info.abattement - don2)) :=
    max_le_max le_rfl (sub_le_sub_left har m)
  have hmono := calcDroits_mono info.bareme 0 _ _ hrn hch hbase
  exact ⟨hmono, sub_le_sub_left hmono m⟩

theorem C10_mono_priorgifts_witness :
    (⟨5043.6, 4956.4, 1594, 8406⟩ : Results).droitsAPayer ≤
      (⟨6000, 4000, 0, 10000⟩ : Results).droitsAPayer ∧
    (⟨6000, 4000, 0, 10000⟩ : Results).montantNet ≤
      (⟨5043.6, 4956.4, 1594, 8406⟩ : Results).montantNet :=
  C10_mono_priorgifts donation "autre" autreInfo 10000 0 2000 _ _
    (by norm_num +decide [FISCAL_DATA]) (by simp) (by norm_num)
    (by norm_num +decide [compute, FISCAL_DATA, autreInfo, calcDroits])
    (by norm_num +decide [compute, FISCAL_DATA, autreInfo, calcDroits])
